import Mathlib

/- Verification of the payment-callback state machine of
   DiyCrafts-Deploy (src/server-payme.py): a shallow embedding of the
   Payme JSON-RPC handlers, the callback envelope phase, and the Click
   `/complete` flow, together with proofs of the specified properties. -/

set_option maxHeartbeats 1000000

namespace Payme

/-- One row of the `orders` table, restricted to the fields the payment
handlers read or write.  An `Option` field models SQL NULL (Python `None`
through the dict cursor).  `items` models the structured JSONB line-item
array (the source normalises a TEXT value with `json.loads`; the model
stores the structured value directly). -/
structure Order where
  order_id : String
  amount : Option Int := none
  status : Option String := none
  transaction_id : Option String := none
  create_time : Option Int := none
  perform_time : Option Int := none
  cancel_time : Option Int := none
  cancel_reason : Option Int := none
  items : List String := []
  is_paid : Option Int := none
  admin_price : Option Int := none
  quantity : Option Int := none
  product : Option String := none
deriving Repr, DecidableEq

/-- The `params` object of a Payme callback as the handlers read it:
`params.get("account", {}).get("order_id")`, `params.get("amount")`,
`params.get("id")` (the provider transaction id), `params.get("reason")`
and `params.get("password")`.  `none` models an absent key (Python
`dict.get` returning `None`). -/
structure Params where
  account_order_id : Option String := none
  amount : Option Int := none
  id : Option String := none
  reason : Option Int := none
  password : Option String := none
deriving Repr, DecidableEq

/-- Python truthiness test `if not order_id` applied to
`account.get("order_id")`: absent (`None`) and the empty string are falsy. -/
def falsyOrderId : Option String → Bool
  | none => true
  | some s => s == ""

/-- The `result` payloads the Payme operations can return. -/
inductive RpcResult where
  | createRes (create_time : Option Int) (transaction : String) (state : Int)
  | performRes (transaction : String) (perform_time : Option Int) (state : Int)
  | checkPerformRes (allow : Bool) (receipt_type : Int) (items : List String)
  | checkRes (create_time perform_time cancel_time : Int) (transaction : String)
      (state : Int) (reason : Option Int)
  | cancelRes (transaction : String) (cancel_time : Option Int) (state : Option Int)
  | passwordRes (success : Bool)
deriving Repr, DecidableEq

/-- A JSON-RPC response as built by the handlers: either `{result, id}` or
`{error: {code, message, data}, id}`.  `make_error_response` in the source
duplicates `message` into ru/uz/en; the model keeps the single string. -/
inductive Resp where
  | ok (result : RpcResult) (id : Int)
  | err (code : Int) (message : String) (data : Option String) (id : Int)
deriving Repr, DecidableEq

/-- Source `make_error_response(req_id, code, message, data)`. -/
def make_error_response (req_id code : Int) (message : String)
    (data : Option String) : Resp :=
  .err code message data req_id

/-- Source `error_order_id`: code -31099, data "order". -/
def error_order_id (req_id : Int) : Resp :=
  make_error_response req_id (-31099) "Order number cannot be found" (some "order")

/-- Source `error_amount`: code -31001, data "amount". -/
def error_amount (req_id : Int) : Resp :=
  make_error_response req_id (-31001) "Order amount is incorrect" (some "amount")

/-- Source `error_has_another_transaction`: code -31099, data "order". -/
def error_has_another_transaction (req_id : Int) : Resp :=
  make_error_response req_id (-31099)
    "Other transaction for this order is in progress" (some "order")

/-- Source `error_unknown`: code -31008, data None. -/
def error_unknown (req_id : Int) : Resp :=
  make_error_response req_id (-31008) "Unknown error" none

/-- Source `error_transaction`: code -31003, data "id". -/
def error_transaction (req_id : Int) : Resp :=
  make_error_response req_id (-31003) "Transaction number is wrong" (some "id")

/-- Source `error_cancelled_transaction`: code -31008, data "order". -/
def error_cancelled_transaction (req_id : Int) : Resp :=
  make_error_response req_id (-31008)
    "Transaction was cancelled or refunded" (some "order")

/-- Source `error_cancel`: code -31007, data "order". -/
def error_cancel (req_id : Int) : Resp :=
  make_error_response req_id (-31007)
    "It is impossible to cancel. The order is completed" (some "order")

/-- Source `error_password`: code -32400, data "password". -/
def error_password (req_id : Int) : Resp :=
  make_error_response req_id (-32400) "Cannot change the password" (some "password")

/-- Source `error_invalid_json`: code -32700, fixed id 0. -/
def error_invalid_json : Resp :=
  make_error_response 0 (-32700) "Could not parse JSON" none

/-- `payme_check_perform_transaction` (server-payme.py lines 445-472).
`row` is the `orders` row the store holds for the supplied
`account.order_id` (`none` when the SELECT finds nothing); the second
component is that row after the call. -/
def payme_check_perform_transaction (params : Params) (req_id : Int)
    (row : Option Order) : Resp × Option Order :=
  if falsyOrderId params.account_order_id then (error_order_id req_id, row)
  else
    match row with
    | none => (error_order_id req_id, none)
    | some order =>
      if order.amount ≠ params.amount then (error_amount req_id, some order)
      else (.ok (.checkPerformRes true 0 order.items) req_id, some order)

/-- `payme_create_transaction` (server-payme.py lines 474-515).
`now_ms` is `int(time.time() * 1000)` at the moment of the call. -/
def payme_create_transaction (params : Params) (req_id now_ms : Int)
    (row : Option Order) : Resp × Option Order :=
  if falsyOrderId params.account_order_id then (error_order_id req_id, row)
  else
    match row with
    | none => (error_order_id req_id, none)
    | some order =>
      if order.amount ≠ params.amount then (error_amount req_id, some order)
      else if order.status = some "new" then
        (.ok (.createRes (some now_ms) ("000" ++ order.order_id) 1) req_id,
         some { order with create_time := some now_ms,
                           transaction_id := params.id,
                           status := some "processing" })
      else if order.status = some "processing" then
        if order.transaction_id = params.id then
          (.ok (.createRes order.create_time ("000" ++ order.order_id) 1) req_id,
           some order)
        else (error_has_another_transaction req_id, some order)
      else (error_unknown req_id, some order)

/-- `payme_perform_transaction` (server-payme.py lines 517-557). -/
def payme_perform_transaction (params : Params) (req_id now_ms : Int)
    (row : Option Order) : Resp × Option Order :=
  if falsyOrderId params.account_order_id then (error_order_id req_id, row)
  else
    match row with
    | none => (error_order_id req_id, none)
    | some order =>
      if order.transaction_id ≠ params.id then (error_transaction req_id, some order)
      else if order.status = some "processing" then
        (.ok (.performRes ("000" ++ order.order_id) (some now_ms) 2) req_id,
         some { order with perform_time := some now_ms, status := some "completed" })
      else if order.status = some "completed" then
        (.ok (.performRes ("000" ++ order.order_id) order.perform_time 2) req_id,
         some order)
      else if order.status = some "cancelled" ∨ order.status = some "refunded" then
        (error_cancelled_transaction req_id, some order)
      else (error_unknown req_id, some order)

/-- `payme_check_transaction` (server-payme.py lines 559-593).  The
timestamps in the result default to 0 when unset (`... or 0`). -/
def payme_check_transaction (params : Params) (req_id : Int)
    (row : Option Order) : Resp × Option Order :=
  if falsyOrderId params.account_order_id then (error_order_id req_id, row)
  else
    match row with
    | none => (error_order_id req_id, none)
    | some order =>
      if order.transaction_id ≠ params.id then (error_transaction req_id, some order)
      else
        (.ok (.checkRes (order.create_time.getD 0) (order.perform_time.getD 0)
          (order.cancel_time.getD 0) ("000" ++ order.order_id)
          (if order.status = some "processing" then 1
           else if order.status = some "completed" then 2
           else if order.status = some "cancelled" then -1
           else if order.status = some "refunded" then -2
           else 0)
          order.cancel_reason) req_id, some order)

/-- `payme_cancel_transaction` (server-payme.py lines 595-628). -/
def payme_cancel_transaction (params : Params) (req_id now_ms : Int)
    (row : Option Order) : Resp × Option Order :=
  if falsyOrderId params.account_order_id then (error_order_id req_id, row)
  else
    match row with
    | none => (error_order_id req_id, none)
    | some order =>
      if order.transaction_id ≠ params.id then (error_transaction req_id, some order)
      else if order.status = some "new" ∨ order.status = some "processing" then
        (.ok (.cancelRes ("000" ++ order.order_id) (some now_ms) (some (-1))) req_id,
         some { order with cancel_time := some now_ms,
                           status := some "cancelled",
                           cancel_reason := params.reason })
      else if order.status = some "completed" then
        (.ok (.cancelRes ("000" ++ order.order_id) (some now_ms) (some (-2))) req_id,
         some { order with cancel_time := some now_ms,
                           status := some "refunded",
                           cancel_reason := params.reason })
      else if order.status = some "cancelled" ∨ order.status = some "refunded" then
        (.ok (.cancelRes ("000" ++ order.order_id) order.cancel_time
          (some (if order.status = some "cancelled" then -1 else -2))) req_id,
         some order)
      else (error_cancel req_id, some order)

/-- `payme_change_password` (server-payme.py lines 630-638).
`merchant_key` is the current `MERCHANT_KEY` environment value; the second
component is that value after the call.  The guard is Python
`if new_password and new_password != os.getenv("MERCHANT_KEY")`, so an
absent or empty password is rejected. -/
def payme_change_password (params : Params) (req_id : Int)
    (merchant_key : String) : Resp × String :=
  match params.password with
  | some np =>
    if np ≠ "" ∧ np ≠ merchant_key then (.ok (.passwordRes true) req_id, np)
    else (error_password req_id, merchant_key)
  | none => (error_password req_id, merchant_key)

/-- A fiscal line item as produced by `create_fiscal_item`.  Modelled from
the spec: the `fiscal` module is not under src/ (an external collaborator
per §2/§6 of the spec); only the opaque item it returns — or the fact that
it raised — matters to the `/complete` handler, so the item body is kept
abstract. -/
structure FiscalItem where
  payload : String
deriving Repr, DecidableEq

/-- Outcome of the outbound fiscal-submission HTTP call in `/complete`
(server-payme.py lines 279-292): HTTP 200 with a parsed body, a non-200
status with raw text, or a raised requests exception. -/
inductive SubmitOutcome where
  | ok (body : String)
  | httpErr (status : Int) (text : String)
  | exc (msg : String)
deriving Repr, DecidableEq

/-- The `fiscal_result` value `/complete` stores in its response:
the parsed body on HTTP 200, `{"error_code": -1, "raw": text}` on a bad
status, `{"error_code": -1, "error_note": msg}` on an exception. -/
inductive FiscalResult where
  | parsed (body : String)
  | errRaw (text : String)
  | errNote (msg : String)
deriving Repr, DecidableEq

/-- Maps the submission outcome to the reported `fiscal_result`
(server-payme.py lines 284-292). -/
def fiscalResultOf : SubmitOutcome → FiscalResult
  | .ok body => .parsed body
  | .httpErr _ text => .errRaw text
  | .exc msg => .errNote msg

/-- A response of the Click `/complete` handler: either an error object
`{"error": code, "error_note": note}` or the success payload
(server-payme.py lines 297-305). -/
inductive ClickResp where
  | err (code : String) (note : String)
  | ok (click_trans_id merchant_trans_id merchant_confirm_id : String)
      (fiscal_items : List FiscalItem) (fiscal_response : FiscalResult)
deriving Repr, DecidableEq

/-- The Click `/complete` handler (server-payme.py lines 175-307) after its
required-field and number-parsing validation (the claims presuppose a
well-formed call): `row` is the orders row for `merchant_trans_id` (all
SELECTs in the handler read the same row), `formQuantity` the parsed form
`quantity` (`none` models an absent or empty form value), `fiscalItem` the
outcome of `create_fiscal_item` (`none` models a raised exception, answered
with error -10), `submit` the outcome of the fiscal-submission HTTP call.
Python truthiness makes a NULL or 0 `admin_price`/stored `quantity` count
as missing, and a NULL or empty `product` fall back to "Unknown product".
The second component is the stored row after the call. -/
def complete (click_trans_id merchant_trans_id merchant_prepare_id : String)
    (amount : Int) (formQuantity : Option Int) (row : Option Order)
    (fiscalItem : Option FiscalItem) (submit : SubmitOutcome) :
    ClickResp × Option Order :=
  let unit_price : Option Int :=
    match row with
    | some o =>
      match o.admin_price with
      | some ap => if ap ≠ 0 then some (ap * 100) else none
      | none => none
    | none => none
  match unit_price with
  | none => (.err "-8" "Missing field: unit_price and not retrieved from DB", row)
  | some _ =>
    let quantity : Option Int :=
      match formQuantity with
      | some q => some q
      | none =>
        match row with
        | some o =>
          match o.quantity with
          | some q => if q ≠ 0 then some q else none
          | none => none
        | none => none
    match quantity with
    | none => (.err "-8" "Missing field: quantity and not retrieved from DB", row)
    | some _ =>
      match row with
      | none => (.err "-5" "Order not found", none)
      | some order =>
        if order.is_paid = some 1 then (.err "-4" "Already paid", some order)
        else
          let order1 := { order with is_paid := some 1, status := some "processing" }
          match fiscalItem with
          | none => (.err "-10" "Fiscal data error", some order1)
          | some item =>
            (.ok click_trans_id merchant_trans_id merchant_prepare_id [item]
              (fiscalResultOf submit),
             some { order1 with status := some "completed" })

/-- A parsed JSON value, as `request.get_json()` can return it. -/
inductive Json where
  | null
  | bool (b : Bool)
  | num (n : Int)
  | str (s : String)
  | arr (elems : List Json)
  | obj (fields : List (String × Json))

/-- Python substring test `key in s` for strings (keys here are the four
nonempty field names). -/
def strHasSub (s key : String) : Bool :=
  (s.splitOn key).length ≥ 2

/-- Python `key in j` on a parsed JSON value: key lookup for objects,
element equality for arrays, substring search for strings; `none` models
the TypeError raised when `j` is null, a boolean or a number. -/
def pyContains (j : Json) (key : String) : Option Bool :=
  match j with
  | .obj fields => some (fields.any (fun f => f.1 == key))
  | .arr elems =>
    some (elems.any (fun e => match e with | .str s => s == key | _ => false))
  | .str s => some (strHasSub s key)
  | _ => none

/-- Python `j["id"]` with a string key: succeeds only on an object holding
the key; `none` models the TypeError (list/str indices must be integers)
or KeyError raised otherwise. -/
def pyIndexStr (j : Json) (key : String) : Option Json :=
  match j with
  | .obj fields => (fields.find? (fun f => f.1 == key)).map (fun f => f.2)
  | _ => none

/-- The field loop of `payme_callback` (lines 414-417): tests the required
fields in order with Python `in`, short-circuiting at the first absent
one; `none` propagates a raised TypeError. -/
def fieldsPresent (j : Json) : List String → Option Bool
  | [] => some true
  | f :: fs =>
    match pyContains j f with
    | none => none
    | some false => some false
    | some true => fieldsPresent j fs

/-- Outcome of the envelope phase of `payme_callback`: a protocol-shaped
response, acceptance (dispatch continues with the extracted request id),
or an exception the handler does not catch (surfaced by Flask as a plain
HTTP 500, not a protocol response). -/
inductive EnvelopeOutcome where
  | respond (r : Resp)
  | proceed (req_id : Json)
  | crash

/-- The envelope phase of `payme_callback` (server-payme.py lines 408-418).
`body = none` models `request.get_json()` raising (caught and answered
with `error_invalid_json`); a parsed body is tested for the four required
fields with Python `in`, after which `req_json["id"]` is read. -/
def parseEnvelope (body : Option Json) : EnvelopeOutcome :=
  match body with
  | none => .respond error_invalid_json
  | some j =>
    match fieldsPresent j ["jsonrpc", "method", "params", "id"] with
    | none => .crash
    | some false => .respond error_invalid_json
    | some true =>
      match pyIndexStr j "id" with
      | none => .crash
      | some rid => .proceed rid

/-- The six methods `payme_callback` dispatches to. -/
inductive PaymeOp where
  | checkPerform
  | create
  | perform
  | check
  | cancel
  | changePassword
deriving Repr, DecidableEq

/-- One dispatched callback: the method, its params, the request id and the
millisecond clock value at the call. -/
structure OpCall where
  op : PaymeOp
  params : Params
  req_id : Int
  now_ms : Int
deriving Repr

/-- Effect of one callback operation on the stored row of one order
(the row exists; none of the six operations deletes a row).
`ChangePassword` mutates only the process-wide secret, never a row. -/
def applyCall (c : OpCall) (o : Order) : Order :=
  match c.op with
  | .checkPerform =>
    ((payme_check_perform_transaction c.params c.req_id (some o)).2).getD o
  | .create =>
    ((payme_create_transaction c.params c.req_id c.now_ms (some o)).2).getD o
  | .perform =>
    ((payme_perform_transaction c.params c.req_id c.now_ms (some o)).2).getD o
  | .check =>
    ((payme_check_transaction c.params c.req_id (some o)).2).getD o
  | .cancel =>
    ((payme_cancel_transaction c.params c.req_id c.now_ms (some o)).2).getD o
  | .changePassword => o

/-- A sequence of callbacks applied to one order's row, in order. -/
def runCalls (cs : List OpCall) (o : Order) : Order :=
  cs.foldl (fun s c => applyCall c s) o

/-- C1: for every order, a second `CreateTransaction` with the same
account, amount and transaction id after a first successful call returns a
result identical to the first (the stored `create_time`, the same
`"000"+order_id` transaction string, state 1) and does not regenerate the
timestamp or mutate the order: the second call, at any later clock value
`t2`, returns exactly the first response and leaves the row exactly as the
first call left it. -/
theorem C1_create_transaction_idempotent (p : Params) (rid t1 t2 : Int)
    (row : Option Order) (res : RpcResult)
    (h : (payme_create_transaction p rid t1 row).1 = Resp.ok res rid) :
    payme_create_transaction p rid t2 (payme_create_transaction p rid t1 row).2
      = payme_create_transaction p rid t1 row := by
  unfold payme_create_transaction at h ⊢
  cases hf : falsyOrderId p.account_order_id with
  | true =>
    rw [hf] at h
    simp [error_order_id, make_error_response] at h
  | false =>
    rw [hf] at h
    simp only [Bool.false_eq_true, if_false] at h ⊢
    cases row with
    | none => simp [error_order_id, make_error_response] at h
    | some o =>
      simp only at h ⊢
      by_cases ha : o.amount = p.amount
      · simp only [ha, ne_eq, not_true_eq_false, if_false, if_neg] at h ⊢
        by_cases hs1 : o.status = some "new"
        · simp only [hs1, if_pos, if_true] at h ⊢
          simp [hf, ha, error_amount, make_error_response]
        · simp only [hs1, if_neg, if_false] at h ⊢
          by_cases hs2 : o.status = some "processing"
          · simp only [hs2, if_pos, if_true] at h ⊢
            by_cases hid : o.transaction_id = p.id
            · simp only [hid, if_pos, if_true] at h ⊢
              simp [hf, ha, hs1, hs2, hid]
            · simp only [hid, if_neg, if_false] at h
              simp [error_has_another_transaction, make_error_response] at h
          · simp only [hs2, if_neg, if_false] at h
            simp [error_unknown, make_error_response] at h
      · simp only [ha, ne_eq, not_false_eq_true, if_pos, if_true] at h
        simp [error_amount, make_error_response] at h

/-- C2: for every order in status `processing` whose stored transaction id
differs from the supplied one, `CreateTransaction` with a matching amount
returns the conflicting-transaction error (`error_has_another_transaction`,
code -31099, data "order") and leaves the row — state, transaction_id and
timestamps — unchanged. -/
theorem C2_create_transaction_conflict (o : Order) (p : Params) (rid t : Int)
    (hf : falsyOrderId p.account_order_id = false)
    (hs : o.status = some "processing") (ha : o.amount = p.amount)
    (hid : o.transaction_id ≠ p.id) :
    payme_create_transaction p rid t (some o)
      = (error_has_another_transaction rid, some o) := by
  unfold payme_create_transaction
  rw [hf]
  simp [ha, hs, hid]

/-- C3: `PerformTransaction` succeeds only when the supplied id equals the
stored `transaction_id`: a mismatch returns `error_transaction` (code
-31003) with no mutation; on a match, status `processing` stamps
`perform_time := now_ms` and moves the order to `completed` returning
state 2, status `completed` replays the stored `perform_time` with state 2
and no mutation, and status `cancelled`/`refunded` returns
`error_cancelled_transaction` (code -31008) with no mutation. -/
theorem C3_perform_transaction_correct (o : Order) (p : Params) (rid t : Int)
    (hf : falsyOrderId p.account_order_id = false) :
    (o.transaction_id ≠ p.id →
      payme_perform_transaction p rid t (some o) = (error_transaction rid, some o)) ∧
    (o.transaction_id = p.id →
      (o.status = some "processing" →
        payme_perform_transaction p rid t (some o)
          = (Resp.ok (RpcResult.performRes ("000" ++ o.order_id) (some t) 2) rid,
             some { o with perform_time := some t, status := some "completed" })) ∧
      (o.status = some "completed" →
        payme_perform_transaction p rid t (some o)
          = (Resp.ok (RpcResult.performRes ("000" ++ o.order_id) o.perform_time 2) rid,
             some o)) ∧
      ((o.status = some "cancelled" ∨ o.status = some "refunded") →
        payme_perform_transaction p rid t (some o)
          = (error_cancelled_transaction rid, some o))) := by
  unfold payme_perform_transaction
  rw [hf]
  refine ⟨fun hid => by simp [hid], fun hid => ⟨fun hs => by simp [hid, hs],
    fun hs => by simp [hid, hs], fun hs => ?_⟩⟩
  rcases hs with hs | hs <;> simp [hid, hs]

/-- C4: for every order with a matching transaction id, `CancelTransaction`
moves a `completed` order to `refunded` (state -2) and a `new` or
`processing` order to `cancelled` (state -1), stamping `cancel_time` and
recording the supplied reason in both cases; on an already `cancelled` or
`refunded` order it replays the stored `cancel_time` with the state the
current status implies, mutating nothing. -/
theorem C4_cancel_transaction_correct (o : Order) (p : Params) (rid t : Int)
    (hf : falsyOrderId p.account_order_id = false)
    (hid : o.transaction_id = p.id) :
    ((o.status = some "new" ∨ o.status = some "processing") →
      payme_cancel_transaction p rid t (some o)
        = (Resp.ok (RpcResult.cancelRes ("000" ++ o.order_id) (some t) (some (-1))) rid,
           some { o with cancel_time := some t, status := some "cancelled",
                         cancel_reason := p.reason })) ∧
    (o.status = some "completed" →
      payme_cancel_transaction p rid t (some o)
        = (Resp.ok (RpcResult.cancelRes ("000" ++ o.order_id) (some t) (some (-2))) rid,
           some { o with cancel_time := some t, status := some "refunded",
                         cancel_reason := p.reason })) ∧
    (o.status = some "cancelled" →
      payme_cancel_transaction p rid t (some o)
        = (Resp.ok (RpcResult.cancelRes ("000" ++ o.order_id) o.cancel_time
            (some (-1))) rid, some o)) ∧
    (o.status = some "refunded" →
      payme_cancel_transaction p rid t (some o)
        = (Resp.ok (RpcResult.cancelRes ("000" ++ o.order_id) o.cancel_time
            (some (-2))) rid, some o)) := by
  unfold payme_cancel_transaction
  rw [hf]
  refine ⟨fun hs => ?_, fun hs => by simp [hid, hs], fun hs => by simp [hid, hs],
    fun hs => by simp [hid, hs]⟩
  rcases hs with hs | hs <;> simp [hid, hs]

/-- C5: `CheckPerformTransaction` and `CheckTransaction` never mutate any
order field, whatever the row's status (first conjunct, over every row
including a missing one); moreover `CheckPerformTransaction` on an
existing order returns `error_amount` (code -31001) when the supplied
amount is not exactly the stored one, and on an exact match returns
`{allow: true, detail: {receipt_type: 0, items: <order items>}}`. -/
theorem C5_checks_read_only
    (p : Params) (rid : Int) (row : Option Order) (o : Order)
    (hf : falsyOrderId p.account_order_id = false) :
    ((payme_check_perform_transaction p rid row).2 = row ∧
     (payme_check_transaction p rid row).2 = row) ∧
    (o.amount ≠ p.amount →
      payme_check_perform_transaction p rid (some o) = (error_amount rid, some o)) ∧
    (o.amount = p.amount →
      payme_check_perform_transaction p rid (some o)
        = (Resp.ok (RpcResult.checkPerformRes true 0 o.items) rid, some o)) := by
  refine ⟨⟨?_, ?_⟩, fun ha => ?_, fun ha => ?_⟩
  · unfold payme_check_perform_transaction
    cases hg : falsyOrderId p.account_order_id
    · cases row with
      | none => simp
      | some o => by_cases ha : o.amount = p.amount <;> simp [ha]
    · simp
  · unfold payme_check_transaction
    cases hg : falsyOrderId p.account_order_id
    · cases row with
      | none => simp
      | some o => by_cases hid : o.transaction_id = p.id <;> simp [hid]
    · simp
  · unfold payme_check_perform_transaction
    rw [hf]
    simp [ha]
  · unfold payme_check_perform_transaction
    rw [hf]
    simp [ha]

/-- Any single callback either leaves `transaction_id` untouched or is a
`CreateTransaction` hitting an order in status `new`. -/
theorem applyCall_transaction_id (c : OpCall) (o : Order) :
    (applyCall c o).transaction_id = o.transaction_id ∨
      (c.op = PaymeOp.create ∧ o.status = some "new") := by
  cases hop : c.op <;>
    unfold applyCall <;> rw [hop] <;>
    [unfold payme_check_perform_transaction;
     unfold payme_create_transaction;
     unfold payme_perform_transaction;
     unfold payme_check_transaction;
     unfold payme_cancel_transaction;
     skip] <;>
    cases hg : falsyOrderId c.params.account_order_id <;>
    simp only [Bool.false_eq_true, if_false, if_true, Option.getD_some] <;>
    try (left; trivial)
  case create.false =>
    by_cases ha : o.amount = c.params.amount
    · by_cases hs1 : o.status = some "new"
      · exact Or.inr ⟨by trivial, hs1⟩
      · by_cases hs2 : o.status = some "processing"
        · by_cases hid : o.transaction_id = c.params.id <;>
            simp [ha, hs1, hs2, hid]
        · simp [ha, hs1, hs2]
    · simp [ha]
  case checkPerform.false =>
    by_cases ha : o.amount = c.params.amount <;> simp [ha]
  case perform.false =>
    by_cases hid : o.transaction_id = c.params.id
    · by_cases hs1 : o.status = some "processing"
      · simp [hid, hs1]
      · by_cases hs2 : o.status = some "completed"
        · simp [hid, hs1, hs2]
        · by_cases hs3 : o.status = some "cancelled" ∨ o.status = some "refunded" <;>
            simp [hid, hs1, hs2, hs3]
    · simp [hid]
  case check.false =>
    by_cases hid : o.transaction_id = c.params.id <;> simp [hid]
  case cancel.false =>
    by_cases hid : o.transaction_id = c.params.id
    · by_cases hs1 : o.status = some "new" ∨ o.status = some "processing"
      · simp [hid, hs1]
      · by_cases hs2 : o.status = some "completed"
        · simp [hid, hs1, hs2]
        · by_cases hs3 : o.status = some "cancelled" ∨ o.status = some "refunded" <;>
            simp [hid, hs1, hs2, hs3]
    · simp [hid]

/-- No callback ever moves an order's status (back) to `new`. -/
theorem applyCall_status_not_new (c : OpCall) (o : Order)
    (h : o.status ≠ some "new") : (applyCall c o).status ≠ some "new" := by
  cases hop : c.op <;>
    unfold applyCall <;> rw [hop] <;>
    [unfold payme_check_perform_transaction;
     unfold payme_create_transaction;
     unfold payme_perform_transaction;
     unfold payme_check_transaction;
     unfold payme_cancel_transaction;
     skip] <;>
    cases hg : falsyOrderId c.params.account_order_id <;>
    simp only [Bool.false_eq_true, if_false, if_true, Option.getD_some] <;>
    try exact h
  case create.false =>
    by_cases ha : o.amount = c.params.amount
    · by_cases hs2 : o.status = some "processing"
      · by_cases hid : o.transaction_id = c.params.id <;> simp [ha, h, hs2, hid]
      · simp [ha, h, hs2]
    · simp [ha, h]
  case checkPerform.false =>
    by_cases ha : o.amount = c.params.amount <;> simp [ha, h]
  case perform.false =>
    by_cases hid : o.transaction_id = c.params.id
    · by_cases hs1 : o.status = some "processing"
      · simp [hid, hs1]
      · by_cases hs2 : o.status = some "completed"
        · simp [hid, hs1, hs2, h]
        · by_cases hs3 : o.status = some "cancelled" ∨ o.status = some "refunded" <;>
            simp [hid, hs1, hs2, hs3, h]
    · simp [hid, h]
  case check.false =>
    by_cases hid : o.transaction_id = c.params.id <;> simp [hid, h]
  case cancel.false =>
    by_cases hid : o.transaction_id = c.params.id
    · by_cases hsp : o.status = some "processing"
      · simp [hid, hsp]
      · by_cases hs2 : o.status = some "completed"
        · simp [hid, h, hsp, hs2]
        · by_cases hs3 : o.status = some "cancelled" ∨ o.status = some "refunded" <;>
            simp [hid, h, hsp, hs2, hs3]
    · simp [hid, h]

/-- An order whose status is no longer `new` keeps its `transaction_id`
through any callback. -/
theorem applyCall_tid_frozen (c : OpCall) (o : Order)
    (h : o.status ≠ some "new") :
    (applyCall c o).transaction_id = o.transaction_id := by
  rcases applyCall_transaction_id c o with heq | ⟨_, hnew⟩
  · exact heq
  · exact absurd hnew h

/-- Any single callback either leaves `transaction_id` untouched or leaves
the order in a status other than `new` (the create branch that writes the
id simultaneously moves the status to `processing`). -/
theorem applyCall_tid_or_not_new (c : OpCall) (o : Order) :
    (applyCall c o).transaction_id = o.transaction_id ∨
      (applyCall c o).status ≠ some "new" := by
  by_cases hc : c.op = PaymeOp.create
  · unfold applyCall
    rw [hc]
    unfold payme_create_transaction
    cases hg : falsyOrderId c.params.account_order_id
    · by_cases ha : o.amount = c.params.amount
      · by_cases hs1 : o.status = some "new"
        · right; simp [ha, hs1]
        · by_cases hs2 : o.status = some "processing"
          · by_cases hid : o.transaction_id = c.params.id <;>
              left <;> simp [ha, hs1, hs2, hid]
          · left; simp [ha, hs1, hs2]
      · left; simp [ha]
    · left; simp
  · rcases applyCall_transaction_id c o with heq | ⟨hc', _⟩
    · exact Or.inl heq
    · exact absurd hc' hc

/-- The data-model invariant "status `new` means no transaction yet" is
preserved by every callback. -/
theorem applyCall_stable (c : OpCall) (o : Order)
    (h : o.status = some "new" → o.transaction_id = none) :
    (applyCall c o).status = some "new" → (applyCall c o).transaction_id = none := by
  intro h'
  rcases applyCall_tid_or_not_new c o with heq | hne
  · rw [heq]
    apply h
    by_contra ho
    exact applyCall_status_not_new c o ho h'
  · exact absurd h' hne

/-- Unfolding one step of `runCalls`. -/
theorem runCalls_cons (c : OpCall) (cs : List OpCall) (o : Order) :
    runCalls (c :: cs) o = runCalls cs (applyCall c o) := rfl

/-- Once an order carries a transaction id and satisfies the "status `new`
means no transaction" invariant, any callback sequence keeps the id and
the invariant. -/
theorem runCalls_fixed (cs : List OpCall) (s : Order) (v : String)
    (hstable : s.status = some "new" → s.transaction_id = none)
    (htid : s.transaction_id = some v) :
    (runCalls cs s).transaction_id = some v ∧
      ((runCalls cs s).status = some "new" →
        (runCalls cs s).transaction_id = none) := by
  induction cs generalizing s with
  | nil => exact ⟨htid, hstable⟩
  | cons c cs ih =>
    have hnn : s.status ≠ some "new" := by
      intro hn
      rw [hstable hn] at htid
      exact Option.noConfusion htid
    rw [runCalls_cons]
    refine ih (applyCall c s) (applyCall_stable c s hstable) ?_
    rw [applyCall_tid_frozen c s hnn]
    exact htid

/-- The "status `new` means no transaction" invariant survives any
callback sequence. -/
theorem runCalls_stable (cs : List OpCall) (s : Order)
    (hstable : s.status = some "new" → s.transaction_id = none) :
    (runCalls cs s).status = some "new" →
      (runCalls cs s).transaction_id = none := by
  induction cs generalizing s with
  | nil => exact hstable
  | cons c cs ih =>
    rw [runCalls_cons]
    exact ih (applyCall c s) (applyCall_stable c s hstable)

/-- C6: across the six callback operations, `transaction_id` is written
only by `CreateTransaction`, and only when the order's status is `new`
(first conjunct); consequently, starting from any order in which a status
of `new` still means "no transaction yet" (the data model's initial
condition — `transaction_id` is null before a transaction exists), once
`transaction_id` holds a non-null value at any point of a callback
sequence, every continuation of the sequence leaves it at that value. -/
theorem C6_transaction_id_write_once :
    (∀ (c : OpCall) (o : Order),
      (applyCall c o).transaction_id ≠ o.transaction_id →
        c.op = PaymeOp.create ∧ o.status = some "new") ∧
    (∀ (o0 : Order), (o0.status = some "new" → o0.transaction_id = none) →
      ∀ (cs1 cs2 : List OpCall) (v : String),
        (runCalls cs1 o0).transaction_id = some v →
        (runCalls (cs1 ++ cs2) o0).transaction_id = some v) := by
  constructor
  · intro c o hne
    rcases applyCall_transaction_id c o with heq | hcr
    · exact absurd heq hne
    · exact hcr
  · intro o0 h0 cs1 cs2 v hv
    have happ : runCalls (cs1 ++ cs2) o0 = runCalls cs2 (runCalls cs1 o0) := by
      simp [runCalls, List.foldl_append]
    rw [happ]
    exact (runCalls_fixed cs2 (runCalls cs1 o0) v (runCalls_stable cs1 o0 h0) hv).1

/-- C7 (code bug): the envelope phase of `payme_callback` answers an
unparseable body with the fixed -32700/`id = 0` error, but a body that
parses to a JSON scalar such as `5` — a body that "cannot be parsed as the
expected structure" — makes the field test `"jsonrpc" in req_json` raise
an uncaught TypeError, so the handler crashes (HTTP 500) instead of
returning the protocol-shaped error the spec requires; a well-formed
object missing a field does get the fixed error. -/
theorem C7_envelope_crash_on_scalar_body :
    parseEnvelope (some (Json.num 5)) = EnvelopeOutcome.crash ∧
    parseEnvelope none = EnvelopeOutcome.respond error_invalid_json ∧
    parseEnvelope (some (Json.obj [("jsonrpc", Json.str "2.0")]))
      = EnvelopeOutcome.respond error_invalid_json ∧
    error_invalid_json = Resp.err (-32700) "Could not parse JSON" none 0 :=
  ⟨rfl, rfl, rfl, rfl⟩

/-- C8 counterexample: an empty supplied password differs from the current
secret "secretkey", yet `ChangePassword` returns the -32400 error and does
not rotate the secret — refuting "success if and only if the supplied
value differs from the current secret". -/
theorem C8_counterexample_empty_password :
    ("" : String) ≠ "secretkey" ∧
    payme_change_password { password := some "" } 1 "secretkey"
      = (error_password 1, "secretkey") := by
  constructor
  · decide
  · rfl

/-- C8 (amended): `ChangePassword` rotates the shared secret and returns
success if and only if the supplied value is a non-empty string that
differs from the current secret; otherwise (password absent, empty, or
equal to the current secret) it returns error -32400 and leaves the
secret unchanged. -/
theorem C8_change_password_amended (p : Params) (rid : Int) (key : String) :
    (∀ np, p.password = some np → np ≠ "" → np ≠ key →
      payme_change_password p rid key
        = (Resp.ok (RpcResult.passwordRes true) rid, np)) ∧
    ((p.password = none ∨ p.password = some "" ∨ p.password = some key) →
      payme_change_password p rid key = (error_password rid, key)) := by
  constructor
  · intro np hnp hne hkey
    unfold payme_change_password
    rw [hnp]
    simp [hne, hkey]
  · intro hcase
    unfold payme_change_password
    rcases hcase with hc | hc | hc <;> rw [hc] <;> simp

/-- C9 counterexample: an existing, unpaid order (`is_paid = 0`) whose
`admin_price` is NULL makes `/complete` fail with error "-8" before any
payment state is written: the order is neither marked `processing` nor
`completed`, refuting "otherwise marks the order processing and then
completed". -/
theorem C9_counterexample_missing_admin_price :
    ({ order_id := "O9", status := some "pending", is_paid := some 0,
       quantity := some 2, product := some "Mug" } : Order).is_paid ≠ some 1 ∧
    complete "c1" "m1" "mp1" 1000 none
      (some { order_id := "O9", status := some "pending", is_paid := some 0,
              quantity := some 2, product := some "Mug" })
      (some { payload := "item" }) (SubmitOutcome.ok "resp")
      = (ClickResp.err "-8" "Missing field: unit_price and not retrieved from DB",
         some { order_id := "O9", status := some "pending", is_paid := some 0,
                quantity := some 2, product := some "Mug" }) := by
  constructor
  · decide
  · rfl

/-- C9 (amended): for every `/complete` call on an existing order whose
`admin_price` is present and non-zero, whose quantity is determinable
(supplied in the form, or stored and non-zero), and whose fiscal line item
is constructed successfully, the handler rejects the call with error "-4"
and mutates nothing if the order's paid flag is already 1; otherwise it
marks the order paid and `processing` and then `completed`, and a failure
of the external receipt submission never rolls that back: for every
submission outcome the order ends in status `completed` with the outcome
only reported in the response. -/
theorem C9_complete_amended (ct mt mp : String) (amount : Int)
    (fq : Option Int) (o : Order) (it : FiscalItem) (sub : SubmitOutcome)
    (hap : ∃ ap, o.admin_price = some ap ∧ ap ≠ 0)
    (hq : (∃ q, fq = some q) ∨ (∃ q, o.quantity = some q ∧ q ≠ 0)) :
    (o.is_paid = some 1 →
      complete ct mt mp amount fq (some o) (some it) sub
        = (ClickResp.err "-4" "Already paid", some o)) ∧
    (o.is_paid ≠ some 1 →
      complete ct mt mp amount fq (some o) (some it) sub
        = (ClickResp.ok ct mt mp [it] (fiscalResultOf sub),
           some { o with is_paid := some 1, status := some "completed" })) := by
  obtain ⟨ap, hap1, hap2⟩ := hap
  constructor
  · intro hpaid
    cases hfq : fq with
    | some q => simp [complete, hap1, hap2, hfq, hpaid]
    | none =>
      rcases hq with ⟨q, hq⟩ | ⟨q, hq1, hq2⟩
      · rw [hfq] at hq; exact Option.noConfusion hq
      · simp [complete, hap1, hap2, hfq, hq1, hq2, hpaid]
  · intro hpaid
    cases hfq : fq with
    | some q => simp [complete, hap1, hap2, hfq, hpaid]
    | none =>
      rcases hq with ⟨q, hq⟩ | ⟨q, hq1, hq2⟩
      · rw [hfq] at hq; exact Option.noConfusion hq
      · simp [complete, hap1, hap2, hfq, hq1, hq2, hpaid]

/-- C10: the transaction-id guard of `PerformTransaction`,
`CheckTransaction` and `CancelTransaction` is plain equality between the
stored `transaction_id` and the supplied `id`, so on an order whose
`transaction_id` is unset a call omitting `id` passes the guard
(`None == None` in the source): `CancelTransaction` with no id cancels an
order in status `new` that never had a transaction (state -1, status
`cancelled`), and `CheckTransaction` on such an order succeeds with
state 0 and no mutation. -/
theorem C10_null_transaction_id_passes (o : Order) (p : Params) (rid t : Int)
    (hf : falsyOrderId p.account_order_id = false)
    (htid : o.transaction_id = none) (hpid : p.id = none)
    (hs : o.status = some "new") :
    payme_cancel_transaction p rid t (some o)
      = (Resp.ok (RpcResult.cancelRes ("000" ++ o.order_id) (some t)
          (some (-1))) rid,
         some { o with cancel_time := some t, status := some "cancelled",
                       cancel_reason := p.reason }) ∧
    payme_check_transaction p rid (some o)
      = (Resp.ok (RpcResult.checkRes (o.create_time.getD 0)
          (o.perform_time.getD 0) (o.cancel_time.getD 0)
          ("000" ++ o.order_id) 0 o.cancel_reason) rid, some o) := by
  have hid : o.transaction_id = p.id := by rw [htid, hpid]
  constructor
  · unfold payme_cancel_transaction
    rw [hf]
    simp [hid, hs]
  · unfold payme_check_transaction
    rw [hf]
    simp [hid, hs]

/-- Witness for C1 at a concrete order: the first call succeeds from
status `new` at clock 111; the second call at clock 222 returns the first
response and row verbatim. -/
theorem C1_create_transaction_idempotent_witness :
    (payme_create_transaction
        { account_order_id := some "A1", amount := some 1000, id := some "T1" } 1 111
        (some { order_id := "A1", amount := some 1000, status := some "new" })).1
      = Resp.ok (RpcResult.createRes (some 111) "000A1" 1) 1 ∧
    payme_create_transaction
        { account_order_id := some "A1", amount := some 1000, id := some "T1" } 1 222
        (payme_create_transaction
          { account_order_id := some "A1", amount := some 1000, id := some "T1" } 1 111
          (some { order_id := "A1", amount := some 1000, status := some "new" })).2
      = payme_create_transaction
          { account_order_id := some "A1", amount := some 1000, id := some "T1" } 1 111
          (some { order_id := "A1", amount := some 1000, status := some "new" }) :=
  ⟨by decide,
   C1_create_transaction_idempotent
     { account_order_id := some "A1", amount := some 1000, id := some "T1" } 1 111 222
     (some { order_id := "A1", amount := some 1000, status := some "new" })
     (RpcResult.createRes (some 111) "000A1" 1) (by decide)⟩

/-- Witness for C2 at a concrete processing order holding transaction "T1"
called with "T2". -/
theorem C2_create_transaction_conflict_witness :
    ({ order_id := "B2", amount := some 500, status := some "processing",
       transaction_id := some "T1" } : Order).transaction_id
      ≠ ({ account_order_id := some "B2", amount := some 500,
           id := some "T2" } : Params).id ∧
    payme_create_transaction
        { account_order_id := some "B2", amount := some 500, id := some "T2" } 3 444
        (some { order_id := "B2", amount := some 500, status := some "processing",
                transaction_id := some "T1" })
      = (error_has_another_transaction 3,
         some { order_id := "B2", amount := some 500, status := some "processing",
                transaction_id := some "T1" }) :=
  ⟨by decide,
   C2_create_transaction_conflict
     { order_id := "B2", amount := some 500, status := some "processing",
       transaction_id := some "T1" }
     { account_order_id := some "B2", amount := some 500, id := some "T2" }
     3 444 (by decide) (by decide) (by decide) (by decide)⟩

/-- Witness for C3 at a concrete processing order: the matching perform
stamps `perform_time` and completes the order. -/
theorem C3_perform_transaction_correct_witness :
    ({ order_id := "C3", amount := some 700, status := some "processing",
       transaction_id := some "T1" } : Order).status = some "processing" ∧
    payme_perform_transaction { account_order_id := some "C3", id := some "T1" } 1 55
        (some { order_id := "C3", amount := some 700, status := some "processing",
                transaction_id := some "T1" })
      = (Resp.ok (RpcResult.performRes "000C3" (some 55) 2) 1,
         some { order_id := "C3", amount := some 700, status := some "completed",
                transaction_id := some "T1", perform_time := some 55 }) :=
  ⟨by decide,
   ((C3_perform_transaction_correct
       { order_id := "C3", amount := some 700, status := some "processing",
         transaction_id := some "T1" }
       { account_order_id := some "C3", id := some "T1" } 1 55 (by decide)).2
     (by decide)).1 (by decide)⟩

/-- Witness for C4 at a concrete completed order: cancelling refunds it
(state -2) and records reason 5. -/
theorem C4_cancel_transaction_correct_witness :
    ({ order_id := "D4", amount := some 900, status := some "completed",
       transaction_id := some "T1", perform_time := some 10 } : Order).status
      = some "completed" ∧
    payme_cancel_transaction
        { account_order_id := some "D4", id := some "T1", reason := some 5 } 1 77
        (some { order_id := "D4", amount := some 900, status := some "completed",
                transaction_id := some "T1", perform_time := some 10 })
      = (Resp.ok (RpcResult.cancelRes "000D4" (some 77) (some (-2))) 1,
         some { order_id := "D4", amount := some 900, status := some "refunded",
                transaction_id := some "T1", perform_time := some 10,
                cancel_time := some 77, cancel_reason := some 5 }) :=
  ⟨by decide,
   (C4_cancel_transaction_correct
      { order_id := "D4", amount := some 900, status := some "completed",
        transaction_id := some "T1", perform_time := some 10 }
      { account_order_id := some "D4", id := some "T1", reason := some 5 }
      1 77 (by decide) (by decide)).2.1 (by decide)⟩

/-- Witness for C5 at a concrete order of amount 1000 probed with 999:
the amount error, no mutation. -/
theorem C5_checks_read_only_witness :
    ({ order_id := "E5", amount := some 1000 } : Order).amount
      ≠ ({ account_order_id := some "E5", amount := some 999 } : Params).amount ∧
    payme_check_perform_transaction
        { account_order_id := some "E5", amount := some 999 } 1
        (some { order_id := "E5", amount := some 1000 })
      = (error_amount 1, some { order_id := "E5", amount := some 1000 }) :=
  ⟨by decide,
   (C5_checks_read_only { account_order_id := some "E5", amount := some 999 } 1
      (some { order_id := "E5", amount := some 1000 })
      { order_id := "E5", amount := some 1000 } (by decide)).2.1 (by decide)⟩

/-- Witness for C6: a fresh `new` order receives transaction "T1" by a
create call; after a further perform call the id is still "T1". -/
theorem C6_transaction_id_write_once_witness :
    (runCalls
        ([⟨PaymeOp.create,
           { account_order_id := some "A6", amount := some 1000, id := some "T1" },
           1, 111⟩] ++
         [⟨PaymeOp.perform, { account_order_id := some "A6", id := some "T1" },
           2, 222⟩])
        { order_id := "A6", amount := some 1000, status := some "new" }).transaction_id
      = some "T1" :=
  C6_transaction_id_write_once.2
    { order_id := "A6", amount := some 1000, status := some "new" } (by decide)
    [⟨PaymeOp.create,
      { account_order_id := some "A6", amount := some 1000, id := some "T1" },
      1, 111⟩]
    [⟨PaymeOp.perform, { account_order_id := some "A6", id := some "T1" }, 2, 222⟩]
    "T1" (by decide)

/-- Witness for C8 (amended) at a concrete non-empty, different password:
the secret rotates. -/
theorem C8_change_password_amended_witness :
    ("newkey" : String) ≠ "oldkey" ∧
    payme_change_password { password := some "newkey" } 1 "oldkey"
      = (Resp.ok (RpcResult.passwordRes true) 1, "newkey") :=
  ⟨by decide,
   (C8_change_password_amended { password := some "newkey" } 1 "oldkey").1
     "newkey" rfl (by decide) (by decide)⟩

/-- Witness for C9 (amended) at a concrete unpaid order with a usable
`admin_price` and stored quantity, where the fiscal submission raises: the
order still ends `completed` and the failure is only reported. -/
theorem C9_complete_amended_witness :
    ({ order_id := "F9", status := some "pending", is_paid := some 0,
       admin_price := some 50, quantity := some 3,
       product := some "Cup" } : Order).is_paid ≠ some 1 ∧
    complete "c9" "m9" "mp9" 400 none
        (some { order_id := "F9", status := some "pending", is_paid := some 0,
                admin_price := some 50, quantity := some 3,
                product := some "Cup" })
        (some { payload := "itm" }) (SubmitOutcome.exc "boom")
      = (ClickResp.ok "c9" "m9" "mp9" [{ payload := "itm" }]
           (FiscalResult.errNote "boom"),
         some { order_id := "F9", status := some "completed", is_paid := some 1,
                admin_price := some 50, quantity := some 3,
                product := some "Cup" }) :=
  ⟨by decide,
   (C9_complete_amended "c9" "m9" "mp9" 400 none
      { order_id := "F9", status := some "pending", is_paid := some 0,
        admin_price := some 50, quantity := some 3, product := some "Cup" }
      { payload := "itm" } (SubmitOutcome.exc "boom")
      ⟨50, rfl, by decide⟩ (Or.inr ⟨3, rfl, by decide⟩)).2 (by decide)⟩

/-- Witness for C10 at a concrete `new` order with no transaction and a
call omitting `id`: the cancel succeeds with state -1. -/
theorem C10_null_transaction_id_passes_witness :
    ({ order_id := "G10", amount := some 100, status := some "new" } : Order).transaction_id
      = none ∧
    payme_cancel_transaction { account_order_id := some "G10" } 1 9
        (some { order_id := "G10", amount := some 100, status := some "new" })
      = (Resp.ok (RpcResult.cancelRes "000G10" (some 9) (some (-1))) 1,
         some { order_id := "G10", amount := some 100, status := some "cancelled",
                cancel_time := some 9 }) :=
  ⟨by decide,
   (C10_null_transaction_id_passes
      { order_id := "G10", amount := some 100, status := some "new" }
      { account_order_id := some "G10" } 1 9 (by decide) rfl rfl rfl).1⟩

end Payme
